import Mathlib

/-!
Verification of the SakuraDevClass backend (backend/src/server.js).

The server is an Express application: a fixed middleware pipeline
(helmet, compression, rate limiter on the /api/ mount, cors, body
parsers, static uploads dir) followed by five routes, an error-handling
middleware and a catch-all 404 route.  We embed the JSON values the
handlers produce, the handlers themselves, the rate limiter
(express-rate-limit with windowMs = 15 min, max = 100), the CORS header
computation (cors package with a single string origin and
credentials = true), and the registration order of the pipeline stages.
-/

/-- JSON values, as produced and consumed by the handlers.  Numbers in the
source data are all integers. -/
inductive JsVal where
  | null : JsVal
  | bool : Bool → JsVal
  | num : Int → JsVal
  | str : String → JsVal
  | arr : List JsVal → JsVal
  | obj : List (String × JsVal) → JsVal

/-- Field lookup on a JSON object, `none` for a missing key (JavaScript
`undefined`) or a non-object. -/
def JsVal.getField : JsVal → String → Option JsVal
  | .obj fields, k => fields.lookup k
  | _, _ => none

/-- JavaScript truthiness of a JSON value: null, false, 0 and the empty
string are falsy; every array and object is truthy. -/
def truthy : JsVal → Bool
  | .null => false
  | .bool b => b
  | .num n => n != 0
  | .str s => s != ""
  | .arr _ => true
  | .obj _ => true

/-- Truthiness of a possibly-absent value; a missing field (JavaScript
`undefined`) is falsy. -/
def truthyOpt : Option JsVal → Bool
  | none => false
  | some v => truthy v

/-- HTTP methods the routes distinguish. -/
inductive Method where
  | get | post | put | delete | patch | options | head
deriving DecidableEq

/-- An incoming HTTP request, after body parsing: method, path, the
Origin header when present, the parsed JSON body (`.null` when there is
none), and the source address the rate limiter keys on. -/
structure HttpRequest where
  method : Method
  path : String
  origin : Option String
  body : JsVal
  ip : String

/-- An HTTP response: status code and JSON body.  `res.json` without an
explicit status sends 200. -/
structure HttpResponse where
  status : Nat
  body : JsVal

/-- The recognized environment configuration (process.env). -/
structure Env where
  NODE_ENV : Option String
  FRONTEND_URL : Option String
  PORT : Option Nat

/-- Response of GET /api/health (server.js lines 48-55); the timestamp is
the current time rendered by toISOString, passed in as `now`. -/
def healthResponse (env : Env) (now : String) : HttpResponse :=
  ⟨200, .obj [
    ("status", .str "OK"),
    ("message", .str "🌸 SakuraDevClass API funcionando correctamente"),
    ("timestamp", .str now),
    ("environment", .str (env.NODE_ENV.getD "development"))]⟩

/-- Response of GET /api (server.js lines 58-69). -/
def welcomeResponse : HttpResponse :=
  ⟨200, .obj [
    ("message", .str "🌸 Bienvenido a SakuraDevClass API"),
    ("version", .str "1.0.0"),
    ("endpoints", .arr [
      .str "GET /api/health - Health check",
      .str "GET /api/projects - Obtener proyectos",
      .str "GET /api/students - Obtener estudiantes",
      .str "POST /api/contact - Enviar mensaje"])]⟩

/-- The two literal Project records (server.js lines 75-112). -/
def projectsData : List JsVal :=
  [ .obj [
      ("_id", .str "1"),
      ("title", .str "E-commerce Vintage"),
      ("description", .str "Tienda online con estética retro"),
      ("technologies", .arr [ .str "React", .str "Node.js", .str "MongoDB"]),
      ("difficulty", .str "Intermedio"),
      ("season", .str "Verano"),
      ("status", .str "Completado"),
      ("featured", .bool true),
      ("sakuraPoints", .num 75),
      ("students", .arr [ .obj [
        ("_id", .str "s1"),
        ("name", .str "María García"),
        ("avatar", .str "https://via.placeholder.com/150x150/FFB7C5/FFFFFF?text=MG")]])],
    .obj [
      ("_id", .str "2"),
      ("title", .str "API de Biblioteca"),
      ("description", .str "Sistema de gestión de libros"),
      ("technologies", .arr [ .str "Node.js", .str "Express", .str "MySQL"]),
      ("difficulty", .str "Avanzado"),
      ("season", .str "Otoño"),
      ("status", .str "En Progreso"),
      ("featured", .bool false),
      ("sakuraPoints", .num 50),
      ("students", .arr [ .obj [
        ("_id", .str "s2"),
        ("name", .str "Carlos López"),
        ("avatar", .str "https://via.placeholder.com/150x150/FFB7C5/FFFFFF?text=CL")]])]]

/-- Response of GET /api/projects (server.js lines 72-115). -/
def projectsResponse : HttpResponse :=
  ⟨200, .obj [
    ("success", .bool true),
    ("data", .arr projectsData),
    ("count", .num 2)]⟩

/-- The two literal Student records (server.js lines 120-149). -/
def studentsData : List JsVal :=
  [ .obj [
      ("_id", .str "s1"),
      ("name", .str "María García"),
      ("email", .str "maria@example.com"),
      ("avatar", .str "https://via.placeholder.com/150x150/FFB7C5/FFFFFF?text=MG"),
      ("bio", .str "Desarrolladora Frontend apasionada por React"),
      ("currentLevel", .str "Intermedio"),
      ("totalSakuraPoints", .num 150),
      ("skills", .arr [
        .obj [("name", .str "React"), ("level", .num 4)],
        .obj [("name", .str "JavaScript"), ("level", .num 4)],
        .obj [("name", .str "CSS"), ("level", .num 3)]])],
    .obj [
      ("_id", .str "s2"),
      ("name", .str "Carlos López"),
      ("email", .str "carlos@example.com"),
      ("avatar", .str "https://via.placeholder.com/150x150/FFB7C5/FFFFFF?text=CL"),
      ("bio", .str "Backend developer enfocado en APIs"),
      ("currentLevel", .str "Avanzado"),
      ("totalSakuraPoints", .num 200),
      ("skills", .arr [
        .obj [("name", .str "Node.js"), ("level", .num 5)],
        .obj [("name", .str "MongoDB"), ("level", .num 4)],
        .obj [("name", .str "Express"), ("level", .num 5)]])]]

/-- Response of GET /api/students (server.js lines 117-152). -/
def studentsResponse : HttpResponse :=
  ⟨200, .obj [
    ("success", .bool true),
    ("data", .arr studentsData),
    ("count", .num 2)]⟩

/-- A skills entry has a numeric level field in the range 1..5. -/
def skillEntryOk (j : JsVal) : Bool :=
  match j.getField "level" with
  | some (.num n) => 1 ≤ n && n ≤ 5
  | _ => false

/-- A student record has a skills array all of whose entries satisfy
`skillEntryOk`. -/
def studentSkillsOk (j : JsVal) : Bool :=
  match j.getField "skills" with
  | some (.arr l) => l.all skillEntryOk
  | _ => false

/-- The field names the contact handler destructures from the body. -/
def contactFields : List String := ["name", "email", "subject", "message"]

/-- The 400 response of POST /api/contact when validation fails
(server.js lines 160-163). -/
def contactReject : HttpResponse :=
  ⟨400, .obj [
    ("success", .bool false),
    ("message", .str "Todos los campos son requeridos")]⟩

/-- The 200 response of POST /api/contact on success (server.js
lines 169-172). -/
def contactAccept : HttpResponse :=
  ⟨200, .obj [
    ("success", .bool true),
    ("message", .str "🌸 Mensaje enviado correctamente. Te responderé pronto!")]⟩

/-- The data the contact handler logs on success: name, email and subject
(server.js line 167); the message body is not logged. -/
structure ContactLog where
  name : JsVal
  email : JsVal
  subject : JsVal

/-- The log entry the contact handler would emit for a given body. -/
def contactLogOf (body : JsVal) : ContactLog :=
  ⟨(body.getField "name").getD .null,
   (body.getField "email").getD .null,
   (body.getField "subject").getD .null⟩

/-- POST /api/contact (server.js lines 155-173): destructure the four
fields; when any is falsy return 400 before logging, otherwise log
name/email/subject and return 200. -/
def contactHandler (body : JsVal) : HttpResponse × Option ContactLog :=
  let name := body.getField "name"
  let email := body.getField "email"
  let subject := body.getField "subject"
  let message := body.getField "message"
  if !truthyOpt name || !truthyOpt email || !truthyOpt subject || !truthyOpt message then
    (contactReject, none)
  else
    (contactAccept, some (contactLogOf body))

/-- The catch-all 404 response (server.js lines 186-192). -/
def notFoundResponse : HttpResponse :=
  ⟨404, .obj [
    ("success", .bool false),
    ("message", .str "Ruta no encontrada 🌸"),
    ("availableRoutes", .arr [
      .str "/api/health",
      .str "/api/projects",
      .str "/api/students",
      .str "/api/contact"])]⟩

/-- An exception value; only its message is observable in the 500
response. -/
structure JsError where
  message : String

/-- The error-handling middleware (server.js lines 176-183): HTTP 500
with a generic message; the error key is set to err.message exactly when
NODE_ENV is the string development, and is undefined otherwise, in which
case res.json drops the key from the serialized body. -/
def errorMiddleware (env : Env) (err : JsError) : HttpResponse :=
  ⟨500, .obj ([
    ("success", .bool false),
    ("message", .str "Error interno del servidor")] ++
    (if env.NODE_ENV = some "development" then [("error", .str err.message)] else []))⟩

/-- The rate-limit window: windowMs = 15 * 60 * 1000 (server.js line 22). -/
def windowMs : Nat := 15 * 60 * 1000

/-- The rate-limit maximum: max = 100 requests per address per window
(server.js line 23). -/
def maxHits : Nat := 100

/-- The configured rate-limit rejection body (server.js lines 24-26);
express-rate-limit sends it with status 429. -/
def rateLimitResponse : HttpResponse :=
  ⟨429, .obj [("error", .str "Demasiadas peticiones, intenta de nuevo en 15 minutos")]⟩

/-- Rate-limiter store: start of the current window and the per-address
hit counters accumulated in it. -/
structure RLState where
  windowStart : Nat
  counts : List (String × Nat)

/-- Hit count recorded for an address in a counter list. -/
def getCountL (c : List (String × Nat)) (ip : String) : Nat :=
  (c.lookup ip).getD 0

/-- Hit count recorded for an address in the limiter state. -/
def getCount (s : RLState) (ip : String) : Nat :=
  getCountL s.counts ip

/-- Increment the counter of one address, creating it at 1 when absent. -/
def bump (c : List (String × Nat)) (ip : String) : List (String × Nat) :=
  match c with
  | [] => [(ip, 1)]
  | (k, v) :: rest => if k = ip then (k, v + 1) :: rest else (k, v) :: bump rest ip

/-- One limiter step at time `t` for address `ip`: expire the window when
it has elapsed, increment the address counter, and admit the request
exactly when the incremented count is within `maxHits`. -/
def rlStep (s : RLState) (t : Nat) (ip : String) : RLState × Bool :=
  let s1 := if s.windowStart + windowMs ≤ t then (⟨t, []⟩ : RLState) else s
  (⟨s1.windowStart, bump s1.counts ip⟩, decide (getCount s1 ip + 1 ≤ maxHits))

/-- The limiter is mounted at '/api/' (server.js line 28). -/
def underApi (p : String) : Bool :=
  "/api/".toList.isPrefixOf p.toList

/-- The static mount at '/uploads' (server.js line 41): the mount path
followed by end of path or a slash. -/
def underUploads (p : String) : Bool :=
  p == "/uploads" || "/uploads/".toList.isPrefixOf p.toList

/-- Route dispatch in registration order (server.js lines 41-192):
the four GET routes, the POST contact route, the static uploads mount
(express.static answers GET and HEAD and falls through when the file is
absent; `fs` is the contents of the uploads directory keyed by request
path), then the catch-all 404.  Returns the response together with the
contact log entry when one is emitted. -/
def dispatch (env : Env) (fs : String → Option String) (now : String)
    (req : HttpRequest) : HttpResponse × Option ContactLog :=
  if req.method == .get && req.path == "/api/health" then
    (healthResponse env now, none)
  else if req.method == .get && req.path == "/api" then
    (welcomeResponse, none)
  else if req.method == .get && req.path == "/api/projects" then
    (projectsResponse, none)
  else if req.method == .get && req.path == "/api/students" then
    (studentsResponse, none)
  else if req.method == .post && req.path == "/api/contact" then
    contactHandler req.body
  else if underUploads req.path && (req.method == .get || req.method == .head) then
    match fs req.path with
    | some file => (⟨200, .str file⟩, none)
    | none => (notFoundResponse, none)
  else
    (notFoundResponse, none)

/-- A request is matched by some defined route: one of the five routes,
or the static mount with an existing file.  Everything else reaches the
404 handler. -/
def matchesRoute (fs : String → Option String) (req : HttpRequest) : Bool :=
  (req.method == .get && req.path == "/api/health") ||
  (req.method == .get && req.path == "/api") ||
  (req.method == .get && req.path == "/api/projects") ||
  (req.method == .get && req.path == "/api/students") ||
  (req.method == .post && req.path == "/api/contact") ||
  (underUploads req.path && (req.method == .get || req.method == .head) &&
    (fs req.path).isSome)

/-- Serve one request: the limiter runs first on the '/api/' mount and
short-circuits with the rejection body when over the limit; otherwise the
request is dispatched. -/
def serve (env : Env) (fs : String → Option String) (now : String)
    (s : RLState) (t : Nat) (req : HttpRequest) :
    RLState × HttpResponse × Option ContactLog :=
  if underApi req.path then
    if (rlStep s t req.ip).2 then
      ((rlStep s t req.ip).1, dispatch env fs now req)
    else
      ((rlStep s t req.ip).1, rateLimitResponse, none)
  else
    (s, dispatch env fs now req)

/-- Serve a timed sequence of requests, threading the limiter state and
collecting the responses. -/
def serveRun (env : Env) (fs : String → Option String) (now : String) :
    RLState → List (Nat × HttpRequest) → RLState × List HttpResponse
  | s, [] => (s, [])
  | s, tr :: rest =>
    let st := serve env fs now s tr.1 tr.2
    let tail := serveRun env fs now st.1 rest
    (tail.1, st.2.1 :: tail.2)

/-- The default CORS origin when FRONTEND_URL is unset (server.js
line 32). -/
def defaultFrontend : String := "http://localhost:3000"

/-- The single origin the cors middleware is configured with. -/
def corsAllowOrigin (env : Env) : String :=
  env.FRONTEND_URL.getD defaultFrontend

/-- Headers added by the cors middleware for the configuration of
server.js lines 31-34 (origin: a single string, credentials: true).  The
cors package writes a string origin into Access-Control-Allow-Origin on
every response without consulting the request Origin header
(`requestOrigin`), adds Vary: Origin, and credentials: true adds
Access-Control-Allow-Credentials: true. -/
def corsHeaders (env : Env) (requestOrigin : Option String) : List (String × String) :=
  [("Access-Control-Allow-Origin", corsAllowOrigin env),
   ("Vary", "Origin"),
   ("Access-Control-Allow-Credentials", "true")]

/-- The pipeline stages in registration order (server.js lines 17-192). -/
inductive Stage where
  | helmetMw | compressionMw | limiterMw | corsMw | jsonBody | urlencodedBody
  | staticUploads | healthRoute | welcomeRoute | projectsRoute | studentsRoute
  | contactRoute | errorCatcher | fallback404
deriving DecidableEq

/-- The registration order of the application stack: helmet (17),
compression (18), the limiter mount (28), cors (31), json and urlencoded
body parsers (37-38), the static mount (41), the five routes (48, 58,
72, 117, 155), the error-handling middleware (176) and the catch-all 404
(186). -/
def pipeline : List Stage :=
  [.helmetMw, .compressionMw, .limiterMw, .corsMw, .jsonBody, .urlencodedBody,
   .staticUploads, .healthRoute, .welcomeRoute, .projectsRoute, .studentsRoute,
   .contactRoute, .errorCatcher, .fallback404]

/-- Whether a stage is error-handling middleware (arity-4 handler); only
the middleware of lines 176-183 is. -/
def isErrorStage : Stage → Bool
  | .errorCatcher => true
  | _ => false

/-- Express error propagation: an exception raised in a stage is handled
by the first error-handling middleware registered after that stage; when
none follows, it falls to the framework default handler (modelled as
`none`). -/
def catcherFor (st : Stage) : Option Stage :=
  ((pipeline.dropWhile (fun x => x != st)).drop 1).find? isErrorStage

/-!
Helper lemmas about the pipeline, shared by several claims.
-/

/-- An admitted request on the '/api/' mount bumps the limiter state and
is dispatched. -/
theorem serve_admitted (env : Env) (fs : String → Option String) (now : String)
    (s : RLState) (t : Nat) (req : HttpRequest)
    (h1 : underApi req.path = true) (h2 : (rlStep s t req.ip).2 = true) :
    serve env fs now s t req = ((rlStep s t req.ip).1, dispatch env fs now req) := by
  simp [serve, h1, h2]

/-- A rejected request on the '/api/' mount receives the fixed rejection
body and is not dispatched. -/
theorem serve_rejected (env : Env) (fs : String → Option String) (now : String)
    (s : RLState) (t : Nat) (req : HttpRequest)
    (h1 : underApi req.path = true) (h2 : (rlStep s t req.ip).2 = false) :
    serve env fs now s t req = ((rlStep s t req.ip).1, rateLimitResponse, none) := by
  simp [serve, h1, h2]

/-- A request off the '/api/' mount never touches the limiter. -/
theorem serve_nonapi (env : Env) (fs : String → Option String) (now : String)
    (s : RLState) (t : Nat) (req : HttpRequest)
    (h1 : underApi req.path = false) :
    serve env fs now s t req = (s, dispatch env fs now req) := by
  simp [serve, h1]

/-- Bumping an address increments exactly its counter. -/
theorem getCountL_bump (c : List (String × Nat)) (ip : String) :
    getCountL (bump c ip) ip = getCountL c ip + 1 := by
  induction c with
  | nil => simp [bump, getCountL, List.lookup]
  | cons kv rest ih =>
    obtain ⟨k, v⟩ := kv
    by_cases h : k = ip
    · subst h
      simp [bump, getCountL, List.lookup]
    · have hk : (ip == k) = false := beq_eq_false_iff_ne.mpr (fun hh => h hh.symm)
      simp [bump, h, getCountL, List.lookup, hk] at ih ⊢
      exact ih

/-- Inside the window the limiter does not reset: it bumps the counter
and admits exactly when the bumped count is within the maximum. -/
theorem rlStep_in_window (s : RLState) (t : Nat) (ip : String)
    (h : t < s.windowStart + windowMs) :
    rlStep s t ip =
      (⟨s.windowStart, bump s.counts ip⟩, decide (getCount s ip + 1 ≤ maxHits)) := by
  have h' : ¬ (s.windowStart + windowMs ≤ t) := by omega
  simp [rlStep, h']

/-- Running a concatenation of request lists runs them in sequence. -/
theorem serveRun_append (env : Env) (fs : String → Option String) (now : String)
    (l1 l2 : List (Nat × HttpRequest)) :
    ∀ s : RLState,
      serveRun env fs now s (l1 ++ l2) =
        ((serveRun env fs now (serveRun env fs now s l1).1 l2).1,
         (serveRun env fs now s l1).2 ++
           (serveRun env fs now (serveRun env fs now s l1).1 l2).2) := by
  induction l1 with
  | nil => intro s; simp [serveRun]
  | cons tr rest ih => intro s; simp [serveRun, ih]

/-- While the per-address count stays within the maximum, every request
of a same-address burst inside the window is dispatched normally, and the
counter advances by the burst length. -/
theorem serveRun_replicate_admitted (env : Env) (fs : String → Option String)
    (now : String) (req : HttpRequest) (t : Nat) (hapi : underApi req.path = true) :
    ∀ (n : Nat) (s : RLState), t < s.windowStart + windowMs →
      getCount s req.ip + n ≤ maxHits →
      ∃ s' : RLState,
        serveRun env fs now s (List.replicate n (t, req)) =
          (s', List.replicate n (dispatch env fs now req).1)
        ∧ s'.windowStart = s.windowStart
        ∧ getCount s' req.ip = getCount s req.ip + n := by
  intro n
  induction n with
  | zero => intro s _ _; exact ⟨s, by simp [serveRun], rfl, rfl⟩
  | succ n ih =>
    intro s hw hc
    have hstep := rlStep_in_window s t req.ip hw
    have hadm : (rlStep s t req.ip).2 = true := by
      rw [hstep]
      simp only [decide_eq_true_eq]
      omega
    have hserve := serve_admitted env fs now s t req hapi hadm
    have hfst : (rlStep s t req.ip).1 = ⟨s.windowStart, bump s.counts req.ip⟩ := by
      rw [hstep]
    have hw1 : t < (⟨s.windowStart, bump s.counts req.ip⟩ : RLState).windowStart + windowMs := hw
    have hc1 : getCount (⟨s.windowStart, bump s.counts req.ip⟩ : RLState) req.ip + n ≤ maxHits := by
      show getCountL (bump s.counts req.ip) req.ip + n ≤ maxHits
      rw [getCountL_bump]
      have h2 : getCountL s.counts req.ip + (n + 1) ≤ maxHits := hc
      omega
    obtain ⟨s', hrun, hws, hcnt⟩ := ih ⟨s.windowStart, bump s.counts req.ip⟩ hw1 hc1
    refine ⟨s', ?_, hws, ?_⟩
    · rw [List.replicate_succ]
      show serveRun env fs now s ((t, req) :: List.replicate n (t, req)) = _
      simp only [serveRun, hserve, hfst, hrun]
      rw [List.replicate_succ]
    · have hb : getCount (⟨s.windowStart, bump s.counts req.ip⟩ : RLState) req.ip =
          getCount s req.ip + 1 := getCountL_bump s.counts req.ip
      omega

/-- C1: for every POST /api/contact body in which all four fields name,
email, subject and message are present with non-empty string values, the
handler answers HTTP 200 with success=true (and logs name, email and
subject); whenever one of the four fields is missing or the empty
string, it answers HTTP 400 with success=false and the fixed
all-fields-required message, and no log side-effect occurs. -/
theorem c1_contact_fields :
    (∀ body : JsVal,
      (∃ s, body.getField "name" = some (.str s) ∧ s ≠ "") →
      (∃ s, body.getField "email" = some (.str s) ∧ s ≠ "") →
      (∃ s, body.getField "subject" = some (.str s) ∧ s ≠ "") →
      (∃ s, body.getField "message" = some (.str s) ∧ s ≠ "") →
        contactHandler body = (contactAccept, some (contactLogOf body)))
    ∧ contactAccept.status = 200
    ∧ contactAccept.body.getField "success" = some (.bool true)
    ∧ (∀ body : JsVal, ∀ f ∈ contactFields,
        (body.getField f = none ∨ body.getField f = some (.str "")) →
          contactHandler body = (contactReject, none))
    ∧ contactReject.status = 400
    ∧ contactReject.body.getField "success" = some (.bool false)
    ∧ contactReject.body.getField "message" = some (.str "Todos los campos son requeridos") := by
  refine ⟨?_, rfl, rfl, ?_, rfl, rfl, rfl⟩
  · intro body hn he hs hm
    obtain ⟨s1, h1, h1'⟩ := hn
    obtain ⟨s2, h2, h2'⟩ := he
    obtain ⟨s3, h3, h3'⟩ := hs
    obtain ⟨s4, h4, h4'⟩ := hm
    simp [contactHandler, h1, h2, h3, h4, truthyOpt, truthy, h1', h2', h3', h4']
  · intro body f hf hmiss
    simp only [contactFields, List.mem_cons, List.not_mem_nil, or_false] at hf
    rcases hf with rfl | rfl | rfl | rfl <;>
      rcases hmiss with h | h <;>
      simp [contactHandler, h, truthyOpt, truthy]

/-- C1 witness: a fully filled body is accepted and logged; a body with
only the name is rejected with no log. -/
theorem c1_contact_fields_witness :
    contactHandler (.obj [("name", .str "Ana"), ("email", .str "ana@mail.com"),
        ("subject", .str "Hola"), ("message", .str "Buenas")]) =
      (contactAccept, some (contactLogOf (.obj [("name", .str "Ana"),
        ("email", .str "ana@mail.com"), ("subject", .str "Hola"),
        ("message", .str "Buenas")])))
    ∧ contactHandler (.obj [("name", .str "Ana")]) = (contactReject, none) :=
  ⟨c1_contact_fields.1 _ ⟨"Ana", rfl, by decide⟩ ⟨"ana@mail.com", rfl, by decide⟩
      ⟨"Hola", rfl, by decide⟩ ⟨"Buenas", rfl, by decide⟩,
   c1_contact_fields.2.2.2.1 _ "email" (by simp [contactFields]) (Or.inl rfl)⟩

/-- C10: the presence check is JavaScript falsiness: a field bound to a
falsy value (empty string, 0, false, null) is treated as missing and
rejected with the 400 response and no log, while whitespace-only strings
are truthy, and a body whose four fields are all truthy is accepted. -/
theorem c10_contact_falsiness :
    (∀ (body : JsVal) (f : String) (v : JsVal), f ∈ contactFields →
        body.getField f = some v → truthy v = false →
        contactHandler body = (contactReject, none))
    ∧ truthy (.str "") = false
    ∧ truthy (.num 0) = false
    ∧ truthy (.bool false) = false
    ∧ truthy .null = false
    ∧ truthy (.str " ") = true
    ∧ (∀ body : JsVal,
        truthyOpt (body.getField "name") = true →
        truthyOpt (body.getField "email") = true →
        truthyOpt (body.getField "subject") = true →
        truthyOpt (body.getField "message") = true →
        contactHandler body = (contactAccept, some (contactLogOf body))) := by
  refine ⟨?_, rfl, rfl, rfl, rfl, rfl, ?_⟩
  · intro body f v hf hv htv
    simp only [contactFields, List.mem_cons, List.not_mem_nil, or_false] at hf
    rcases hf with rfl | rfl | rfl | rfl <;>
      simp [contactHandler, hv, truthyOpt, htv]
  · intro body h1 h2 h3 h4
    simp [contactHandler, h1, h2, h3, h4]

/-- C10 witness: a present-but-falsy field (the number 0 as name) is
rejected, and a whitespace-only message is accepted. -/
theorem c10_contact_falsiness_witness :
    contactHandler (.obj [("name", .num 0), ("email", .str "a@b.c"),
        ("subject", .str "x"), ("message", .str "y")]) = (contactReject, none)
    ∧ contactHandler (.obj [("name", .str " "), ("email", .str "a@b.c"),
        ("subject", .str "x"), ("message", .str " ")]) =
      (contactAccept, some (contactLogOf (.obj [("name", .str " "),
        ("email", .str "a@b.c"), ("subject", .str "x"), ("message", .str " ")]))) :=
  ⟨c10_contact_falsiness.1 _ "name" (.num 0) (by simp [contactFields]) rfl rfl,
   c10_contact_falsiness.2.2.2.2.2.2 _ rfl rfl rfl rfl⟩

/-- C6: every GET request to /api/projects is answered with the fixed
200 response whose body has success=true, a data array of exactly two
Project records, and a count field equal to the length of that array. -/
theorem c6_projects (env : Env) (fs : String → Option String) (now : String)
    (req : HttpRequest) (hm : req.method = .get) (hp : req.path = "/api/projects") :
    dispatch env fs now req = (projectsResponse, none)
    ∧ projectsResponse.status = 200
    ∧ projectsResponse.body.getField "success" = some (.bool true)
    ∧ (∃ l, projectsResponse.body.getField "data" = some (.arr l) ∧ l.length = 2
        ∧ projectsResponse.body.getField "count" = some (.num l.length)) := by
  obtain ⟨m, p, o, b, ip⟩ := req
  dsimp at hm hp
  subst hm; subst hp
  exact ⟨rfl, rfl, rfl, projectsData, rfl, rfl, rfl⟩

/-- C6 witness at a concrete request. -/
theorem c6_projects_witness :
    dispatch ⟨none, none, none⟩ (fun _ => none) "2026-01-01T00:00:00.000Z"
      ⟨.get, "/api/projects", none, .null, "203.0.113.1"⟩ = (projectsResponse, none) :=
  (c6_projects ⟨none, none, none⟩ (fun _ => none) "2026-01-01T00:00:00.000Z"
    ⟨.get, "/api/projects", none, .null, "203.0.113.1"⟩ rfl rfl).1

/-- C7: every GET request to /api/students is answered with the fixed
response containing exactly two Student records, every skills entry of
which carries a numeric level in the range 1..5. -/
theorem c7_students (env : Env) (fs : String → Option String) (now : String)
    (req : HttpRequest) (hm : req.method = .get) (hp : req.path = "/api/students") :
    dispatch env fs now req = (studentsResponse, none)
    ∧ (∃ l, studentsResponse.body.getField "data" = some (.arr l) ∧ l.length = 2
        ∧ l.all studentSkillsOk = true) := by
  obtain ⟨m, p, o, b, ip⟩ := req
  dsimp at hm hp
  subst hm; subst hp
  exact ⟨rfl, studentsData, rfl, rfl, by decide⟩

/-- C7 witness at a concrete request. -/
theorem c7_students_witness :
    dispatch ⟨none, none, none⟩ (fun _ => none) "2026-01-01T00:00:00.000Z"
      ⟨.get, "/api/students", none, .null, "203.0.113.1"⟩ = (studentsResponse, none) :=
  (c7_students ⟨none, none, none⟩ (fun _ => none) "2026-01-01T00:00:00.000Z"
    ⟨.get, "/api/students", none, .null, "203.0.113.1"⟩ rfl rfl).1

/-- C3 counterexample: with NODE_ENV unset (the default configuration),
the 500 body of the error-handling middleware carries no error key at
all — the raw error message is omitted, not included as the claim
deduces from the development default. -/
theorem c3_error_detail_counterexample :
    (errorMiddleware ⟨none, none, none⟩ ⟨"boom"⟩).body.getField "error" = none
    ∧ (errorMiddleware ⟨none, none, none⟩ ⟨"boom"⟩).body.getField "error" ≠
        some (.str "boom") := by
  refine ⟨rfl, ?_⟩
  intro h
  have h' : (none : Option JsVal) = some (.str "boom") := h
  exact nomatch h'

/-- C3 amended: the 500 response includes the raw error message exactly
when NODE_ENV is set to the string development; the development default
applies only to the environment label, so under the default
configuration (NODE_ENV unset) the message is omitted. -/
theorem c3_error_detail_amended (env : Env) (err : JsError) :
    (errorMiddleware env err).status = 500
    ∧ ((errorMiddleware env err).body.getField "error" =
        if env.NODE_ENV = some "development" then some (.str err.message) else none)
    ∧ (env.NODE_ENV = none → (errorMiddleware env err).body.getField "error" = none) := by
  refine ⟨rfl, ?_, ?_⟩
  · by_cases h : env.NODE_ENV = some "development"
    · rw [if_pos h]
      unfold errorMiddleware
      rw [if_pos h]
      rfl
    · rw [if_neg h]
      unfold errorMiddleware
      rw [if_neg h]
      rfl
  · intro h
    have h' : env.NODE_ENV ≠ some "development" := by
      rw [h]; intro hh; exact nomatch hh
    unfold errorMiddleware
    rw [if_neg h']
    rfl

/-- C3 amended witness: NODE_ENV unset omits the message; NODE_ENV set
to development includes it. -/
theorem c3_error_detail_amended_witness :
    (errorMiddleware ⟨none, none, none⟩ ⟨"fail"⟩).body.getField "error" = none
    ∧ (errorMiddleware ⟨some "development", none, none⟩ ⟨"fail"⟩).body.getField "error" =
        some (.str "fail") := by
  constructor
  · exact (c3_error_detail_amended ⟨none, none, none⟩ ⟨"fail"⟩).2.2 rfl
  · have h := (c3_error_detail_amended ⟨some "development", none, none⟩ ⟨"fail"⟩).2.1
    simpa using h

/-- C4 counterexample: the error-handling middleware is not the final
stage of the pipeline — the 404 fallback is registered after it, and no
error-handling middleware follows the 404 fallback, so an exception
raised there would not be intercepted by it. -/
theorem c4_error_middleware_counterexample :
    pipeline.getLast? = some Stage.fallback404
    ∧ Stage.fallback404 ≠ Stage.errorCatcher
    ∧ catcherFor .fallback404 = none := by decide

/-- C4 amended: the error-handling middleware is registered after the
five main route handlers but before the 404 fallback; an exception
raised by any of the five is intercepted by it and answered with HTTP
500, success=false and the generic message, while an exception raised by
the 404 fallback has no error middleware after it and would fall to the
framework default handler. -/
theorem c4_error_middleware_amended :
    (∀ st ∈ [Stage.healthRoute, Stage.welcomeRoute, Stage.projectsRoute,
        Stage.studentsRoute, Stage.contactRoute],
      catcherFor st = some .errorCatcher)
    ∧ catcherFor .fallback404 = none
    ∧ (∀ (env : Env) (err : JsError),
        (errorMiddleware env err).status = 500
        ∧ (errorMiddleware env err).body.getField "success" = some (.bool false)
        ∧ (errorMiddleware env err).body.getField "message" =
            some (.str "Error interno del servidor")) := by
  refine ⟨?_, by decide, fun env err => ⟨rfl, rfl, rfl⟩⟩
  intro st hst
  simp only [List.mem_cons, List.not_mem_nil, or_false] at hst
  rcases hst with rfl | rfl | rfl | rfl | rfl <;> decide

/-- C4 amended witness: the contact route's exceptions reach the error
middleware, which answers 500 with the generic message. -/
theorem c4_error_middleware_amended_witness :
    catcherFor .contactRoute = some .errorCatcher
    ∧ (errorMiddleware ⟨none, none, none⟩ ⟨"boom"⟩).status = 500 :=
  ⟨c4_error_middleware_amended.1 .contactRoute (by simp),
   (c4_error_middleware_amended.2.2 ⟨none, none, none⟩ ⟨"boom"⟩).1⟩

/-- C5 counterexample: a request from an origin other than the
configured one still receives the Access-Control-Allow-Origin header —
set to the configured origin — contradicting the claim that such
requests carry no CORS allow header. -/
theorem c5_cors_counterexample :
    (corsHeaders ⟨none, none, none⟩ (some "http://evil.example")).lookup
      "Access-Control-Allow-Origin" = some "http://localhost:3000"
    ∧ (corsHeaders ⟨none, none, none⟩ (some "http://evil.example")).lookup
      "Access-Control-Allow-Origin" ≠ none := by
  refine ⟨rfl, ?_⟩
  intro h
  have h' : some "http://localhost:3000" = (none : Option String) := h
  exact nomatch h'

/-- C5 amended: the cors middleware, configured with the single string
origin FRONTEND_URL (default http://localhost:3000) and credentials,
writes that origin into Access-Control-Allow-Origin on every response
regardless of the request's Origin, together with
Access-Control-Allow-Credentials: true; a request from any other origin
therefore is not granted its own origin — the allow header is present
but names the configured origin, and browsers reject on the mismatch. -/
theorem c5_cors_amended (env : Env) (o1 o2 : Option String) (o : String)
    (ho : o ≠ corsAllowOrigin env) :
    corsHeaders env o1 = corsHeaders env o2
    ∧ (corsHeaders env (some o)).lookup "Access-Control-Allow-Origin" =
        some (corsAllowOrigin env)
    ∧ (corsHeaders env (some o)).lookup "Access-Control-Allow-Credentials" = some "true"
    ∧ (corsHeaders env (some o)).lookup "Access-Control-Allow-Origin" ≠ some o := by
  refine ⟨rfl, rfl, rfl, ?_⟩
  intro h
  have h' : some (corsAllowOrigin env) = some o := h
  exact ho (Option.some.inj h').symm

/-- C5 amended witness at the default configuration and a foreign
origin. -/
theorem c5_cors_amended_witness :
    (corsHeaders ⟨none, none, none⟩ (some "http://evil.example")).lookup
        "Access-Control-Allow-Origin" = some (corsAllowOrigin ⟨none, none, none⟩)
    ∧ (corsHeaders ⟨none, none, none⟩ (some "http://evil.example")).lookup
        "Access-Control-Allow-Origin" ≠ some "http://evil.example" :=
  ⟨(c5_cors_amended ⟨none, none, none⟩ none none "http://evil.example" (by decide)).2.1,
   (c5_cors_amended ⟨none, none, none⟩ none none "http://evil.example" (by decide)).2.2.2⟩

/-- C9: every request, of any method, whose path is matched by no
defined route is answered with HTTP 404, success=false, the fixed
route-not-found message and the fixed list of available routes. -/
theorem c9_not_found (env : Env) (fs : String → Option String) (now : String)
    (req : HttpRequest) (h : matchesRoute fs req = false) :
    dispatch env fs now req = (notFoundResponse, none)
    ∧ notFoundResponse.status = 404
    ∧ notFoundResponse.body.getField "success" = some (.bool false)
    ∧ notFoundResponse.body.getField "message" = some (.str "Ruta no encontrada 🌸")
    ∧ notFoundResponse.body.getField "availableRoutes" =
        some (.arr [ .str "/api/health", .str "/api/projects",
          .str "/api/students", .str "/api/contact"]) := by
  refine ⟨?_, rfl, rfl, rfl, rfl⟩
  simp only [matchesRoute, Bool.or_eq_false_iff] at h
  obtain ⟨⟨⟨⟨⟨h1, h2⟩, h3⟩, h4⟩, h5⟩, h6⟩ := h
  cases hu : (underUploads req.path && (req.method == Method.get || req.method == Method.head)) with
  | false => simp [dispatch, h1, h2, h3, h4, h5, hu]
  | true =>
    cases hfs : fs req.path with
    | none => simp [dispatch, h1, h2, h3, h4, h5, hu, hfs]
    | some file =>
      rw [Bool.and_eq_false_iff] at h6
      rcases h6 with h6 | h6
      · rw [hu] at h6; exact nomatch h6
      · rw [hfs] at h6; exact nomatch h6

/-- C9 witness: a DELETE request to /api/unknown with an empty uploads
directory reaches the 404 handler. -/
theorem c9_not_found_witness :
    dispatch ⟨none, none, none⟩ (fun _ => none) "2026-01-01T00:00:00.000Z"
      ⟨.delete, "/api/unknown", none, .null, "203.0.113.1"⟩ = (notFoundResponse, none) :=
  (c9_not_found ⟨none, none, none⟩ (fun _ => none) "2026-01-01T00:00:00.000Z"
    ⟨.delete, "/api/unknown", none, .null, "203.0.113.1"⟩ (by decide)).1

/-- C8: the Project and Student payloads are identical across requests:
after any history of operations whatever (contact posts included), an
admitted GET /api/projects or GET /api/students request is answered with
the same fixed literal response; no state of the system feeds into these
payloads, so no write path to them exists. -/
theorem c8_static_data (env : Env) (fs : String → Option String) (now : String)
    (hist : List (Nat × HttpRequest)) (s0 : RLState) (t : Nat) (r : HttpRequest)
    (hadm : (rlStep (serveRun env fs now s0 hist).1 t r.ip).2 = true) :
    (r.method = .get → r.path = "/api/projects" →
      (serve env fs now (serveRun env fs now s0 hist).1 t r).2.1 = projectsResponse)
    ∧ (r.method = .get → r.path = "/api/students" →
      (serve env fs now (serveRun env fs now s0 hist).1 t r).2.1 = studentsResponse) := by
  obtain ⟨m, p, o, b, ip⟩ := r
  dsimp at hadm
  constructor
  · intro hm hp
    dsimp at hm hp
    subst hm; subst hp
    have h1 : underApi "/api/projects" = true := by decide
    rw [serve_admitted env fs now (serveRun env fs now s0 hist).1 t
      ⟨.get, "/api/projects", o, b, ip⟩ h1 hadm]
    rfl
  · intro hm hp
    dsimp at hm hp
    subst hm; subst hp
    have h1 : underApi "/api/students" = true := by decide
    rw [serve_admitted env fs now (serveRun env fs now s0 hist).1 t
      ⟨.get, "/api/students", o, b, ip⟩ h1 hadm]
    rfl

/-- C8 witness: after a contact post, a projects request still returns
the fixed payload. -/
theorem c8_static_data_witness :
    (serve ⟨none, none, none⟩ (fun _ => none) "2026-01-01T00:00:00.000Z"
      (serveRun ⟨none, none, none⟩ (fun _ => none) "2026-01-01T00:00:00.000Z" ⟨0, []⟩
        [(0, ⟨.post, "/api/contact", none,
          .obj [("name", .str "Ana"), ("email", .str "a@b.c"),
            ("subject", .str "x"), ("message", .str "y")], "203.0.113.1"⟩)]).1
      0 ⟨.get, "/api/projects", none, .null, "203.0.113.1"⟩).2.1 = projectsResponse :=
  (c8_static_data ⟨none, none, none⟩ (fun _ => none) "2026-01-01T00:00:00.000Z"
    [(0, ⟨.post, "/api/contact", none,
      .obj [("name", .str "Ana"), ("email", .str "a@b.c"),
        ("subject", .str "x"), ("message", .str "y")], "203.0.113.1"⟩)]
    ⟨0, []⟩ 0 ⟨.get, "/api/projects", none, .null, "203.0.113.1"⟩
    (by decide)).1 rfl rfl

/-- C2: from one source address, a burst of 101 requests to a path on
the '/api/' mount inside one 15-minute window is answered with the
normal dispatch response for the first 100 requests and with the fixed
structured rejection for the 101st; requests to paths not under the
'/api/' mount never touch the limiter. -/
theorem c2_rate_limiter (env : Env) (fs : String → Option String) (now : String)
    (req : HttpRequest) (t : Nat) (hapi : underApi req.path = true)
    (ht : t < windowMs) :
    (serveRun env fs now ⟨0, []⟩ (List.replicate 101 (t, req))).2 =
      List.replicate 100 (dispatch env fs now req).1 ++ [rateLimitResponse]
    ∧ (∀ (s : RLState) (u : Nat) (r : HttpRequest), underApi r.path = false →
        serve env fs now s u r = (s, dispatch env fs now r)) := by
  constructor
  · have hrep : List.replicate 101 (t, req) =
        List.replicate 100 (t, req) ++ [(t, req)] := List.replicate_succ' 100 (t, req)
    rw [hrep, serveRun_append]
    have hw0 : t < (⟨0, []⟩ : RLState).windowStart + windowMs := by
      show t < 0 + windowMs
      omega
    have hc0 : getCount (⟨0, []⟩ : RLState) req.ip + 100 ≤ maxHits := by
      show getCountL [] req.ip + 100 ≤ maxHits
      simp [getCountL, List.lookup, maxHits]
    obtain ⟨s100, hrun, hws, hcnt⟩ :=
      serveRun_replicate_admitted env fs now req t hapi 100 ⟨0, []⟩ hw0 hc0
    rw [hrun]
    have hcnt' : getCount s100 req.ip = 100 := by
      rw [hcnt]
      show getCountL [] req.ip + 100 = 100
      simp [getCountL, List.lookup]
    have hw1 : t < s100.windowStart + windowMs := by
      rw [hws]
      show t < 0 + windowMs
      omega
    have hstep := rlStep_in_window s100 t req.ip hw1
    have hrej : (rlStep s100 t req.ip).2 = false := by
      rw [hstep]
      simp only [hcnt', decide_eq_false_iff_not]
      intro hcontra
      simp [maxHits] at hcontra
    have hs := serve_rejected env fs now s100 t req hapi hrej
    simp [serveRun, hs]
  · intro s u r h
    exact serve_nonapi env fs now s u r h

/-- C2 witness: 101 health-check requests from one address at time 0
give 100 health responses followed by the fixed rejection; a non-api
request is untouched by the limiter. -/
theorem c2_rate_limiter_witness :
    (serveRun ⟨none, none, none⟩ (fun _ => none) "2026-01-01T00:00:00.000Z" ⟨0, []⟩
      (List.replicate 101 (0, ⟨.get, "/api/health", none, .null, "203.0.113.1"⟩))).2 =
      List.replicate 100 (dispatch ⟨none, none, none⟩ (fun _ => none)
        "2026-01-01T00:00:00.000Z" ⟨.get, "/api/health", none, .null, "203.0.113.1"⟩).1
        ++ [rateLimitResponse] :=
  (c2_rate_limiter ⟨none, none, none⟩ (fun _ => none) "2026-01-01T00:00:00.000Z"
    ⟨.get, "/api/health", none, .null, "203.0.113.1"⟩ 0 (by decide) (by decide)).1
